import Mathlib

/-!
Formal model of the Turn Resolution Engine of the spellingbee gateway
(src/gateway/main.py): word normalization, the deterministic letter parser,
intent classification, transcript fusion with the generative-fallback
acceptance policy, dual-path grading, and the session turn state machine.

Modelling conventions:
  - Python strings are Lean `String` (lists of characters, ASCII semantics
    for lower/strip/word characters, which covers every string the claims
    quantify over);
  - the per-session `attempts` dict (keyed by the word index) is an
    association list with `dict.get(k, 0)` / `d[k] = v` operations;
  - the two external collaborators that feed `turn_answer` — the speech
    transcriber and the generative letter extractor — are explicit inputs
    of the turn function (`TurnInput.audio_tx` is the transcription of the
    uploaded audio, `TurnInput.llm` is the outcome of the chat call:
    `none` models a raised transport error, `some raw` the decoded
    "letters" array of the extracted JSON object);
  - an HTTPException is the `Except.error` case, carrying status and detail;
    a raised error never reaches a `_save_session` call, so an error result
    leaves the stored session untouched by construction.
-/

namespace SB

/-- Python whitespace for str.split / str.strip (ASCII subset). -/
def isSpaceChar (c : Char) : Bool :=
  c == ' ' || c == '\t' || c == '\n' || c == '\r' || c == '\x0b' || c == '\x0c'

/-- Lowercase letter test: the character class of `_letter_re = [a-z]`. -/
def isAZ (c : Char) : Bool := decide ('a' ≤ c) && decide (c ≤ 'z')

/-- Word character for the regex word boundary \b (ASCII [A-Za-z0-9_]). -/
def isWordChar (c : Char) : Bool := c.isAlphanum || c == '_'

/-- Python str.strip on a character list. -/
def stripList (l : List Char) : List Char :=
  ((l.dropWhile isSpaceChar).reverse.dropWhile isSpaceChar).reverse

/-- Python str.strip. -/
def pyStrip (s : String) : String := String.mk (stripList s.data)

/-- Python str.lower (ASCII). -/
def pyLower (s : String) : String := String.mk (s.data.map Char.toLower)

/-- Python `a or b` on strings: `a` when non-empty, else `b`. -/
def pyOr (a b : String) : String := if a = "" then b else a

/-- Driver of Python str.split(): split on whitespace runs, dropping
empty pieces; `acc` is the reversed current token. -/
def splitWSAux : List Char → List Char → List (List Char)
  | [], acc => if acc = [] then [] else [acc.reverse]
  | c :: cs, acc =>
    if isSpaceChar c then
      if acc = [] then splitWSAux cs [] else acc.reverse :: splitWSAux cs []
    else splitWSAux cs (c :: acc)

/-- Python str.split() with no separator argument. -/
def pySplit (s : String) : List String := (splitWSAux s.data []).map String.mk

/-- normalize_word (gateway/main.py:247): strip, lowercase, keep only a-z. -/
def normalize_word (w : String) : String :=
  String.mk (((stripList w.data).map Char.toLower).filter isAZ)

/-- The NATO code-word map (gateway/main.py:208). -/
def NATO : List (String × Char) :=
  [("alpha", 'a'), ("bravo", 'b'), ("charlie", 'c'), ("delta", 'd'),
   ("echo", 'e'), ("foxtrot", 'f'), ("golf", 'g'), ("hotel", 'h'),
   ("india", 'i'), ("juliet", 'j'), ("kilo", 'k'), ("lima", 'l'),
   ("mike", 'm'), ("november", 'n'), ("oscar", 'o'), ("papa", 'p'),
   ("quebec", 'q'), ("romeo", 'r'), ("sierra", 's'), ("tango", 't'),
   ("uniform", 'u'), ("victor", 'v'), ("whiskey", 'w'),
   ("xray", 'x'), ("x-ray", 'x'), ("yankee", 'y'), ("zulu", 'z')]

/-- The letter-name homophone map (gateway/main.py:215). -/
def LETTER_HOMOPHONES : List (String × Char) :=
  [("ay", 'a'), ("a", 'a'), ("aye", 'a'), ("hey", 'a'),
   ("bee", 'b'), ("be", 'b'), ("b", 'b'),
   ("cee", 'c'), ("see", 'c'), ("sea", 'c'), ("c", 'c'),
   ("dee", 'd'), ("d", 'd'),
   ("ee", 'e'), ("e", 'e'), ("he", 'e'),
   ("ef", 'f'), ("eff", 'f'), ("f", 'f'),
   ("gee", 'g'), ("g", 'g'), ("ji", 'g'),
   ("aitch", 'h'), ("h", 'h'), ("age", 'h'), ("each", 'h'), ("ach", 'h'),
   ("i", 'i'), ("eye", 'i'),
   ("jay", 'j'), ("j", 'j'),
   ("kay", 'k'), ("k", 'k'), ("okay", 'k'),
   ("el", 'l'), ("l", 'l'), ("ell", 'l'), ("elle", 'l'),
   ("em", 'm'), ("m", 'm'),
   ("en", 'n'), ("n", 'n'), ("and", 'n'), ("end", 'n'),
   ("oh", 'o'), ("o", 'o'), ("owe", 'o'), ("ow", 'o'),
   ("pee", 'p'), ("p", 'p'), ("pea", 'p'),
   ("cue", 'q'), ("queue", 'q'), ("q", 'q'), ("kew", 'q'),
   ("are", 'r'), ("r", 'r'), ("our", 'r'), ("ar", 'r'),
   ("ess", 's'), ("s", 's'), ("es", 's'),
   ("tee", 't'), ("t", 't'), ("tea", 't'),
   ("you", 'u'), ("u", 'u'), ("yew", 'u'),
   ("vee", 'v'), ("v", 'v'), ("ve", 'v'),
   ("doubleyou", 'w'), ("double-u", 'w'), ("doubleu", 'w'), ("w", 'w'),
   ("ex", 'x'), ("x", 'x'),
   ("why", 'y'), ("y", 'y'), ("wye", 'y'),
   ("zee", 'z'), ("zed", 'z'), ("z", 'z')]

/-- Resolution of one whitespace token of the cleaned transcript
(the body of the loop in gateway/main.py:315-329): NATO word, then
letter homophone, then a literal single letter, then last-resort
decomposition of an alphabetic token into its characters, else discard. -/
def parse_token (tok : List Char) : List Char :=
  match (NATO.lookup (String.mk tok)) with
  | some l => [l]
  | none =>
    match (LETTER_HOMOPHONES.lookup (String.mk tok)) with
    | some l => [l]
    | none =>
      if tok.length == 1 && tok.all isAZ then tok
      else if decide (tok.length > 1) && tok.all Char.isAlpha then tok
      else []

/-- parse_letters_deterministic (gateway/main.py:304): lowercase, replace
every character outside [a-z\s-] with a space, split on whitespace and
resolve each token with `parse_token` in order. -/
def parse_letters_deterministic (transcript : String) : List Char :=
  if transcript = "" then []
  else
    let t := (pyStrip transcript).data.map Char.toLower
    let cleaned := t.map (fun c =>
      if isAZ c || isSpaceChar c || c == '-' then c else ' ')
    ((splitWSAux cleaned []).map parse_token).flatten

/-- Right-boundary-aware anchored match: the text starts with the phrase
and the phrase is followed by the end of the text or a non-word character
(the trailing \b of the patterns, whose alternatives all end in a word
character). -/
def matchAt : List Char → List Char → Bool
  | [], [] => true
  | [], c :: _ => !(isWordChar c)
  | _ :: _, [] => false
  | p :: ps, c :: cs => p == c && matchAt ps cs

/-- The left word boundary: start of text or a non-word previous character
(every pattern alternative starts with a word character). -/
def boundaryOK : Option Char → Bool
  | none => true
  | some c => !(isWordChar c)

/-- re.search of a literal alternative with \b on both sides: try every
position, carrying the previous character for the left boundary. -/
def searchFrom (phrase : List Char) : Option Char → List Char → Bool
  | prev, [] => boundaryOK prev && matchAt phrase []
  | prev, c :: cs =>
    (boundaryOK prev && matchAt phrase (c :: cs)) || searchFrom phrase (some c) cs

/-- Word-boundary-delimited search of one literal phrase in a text. -/
def hasWB (phrase : String) (t : String) : Bool :=
  searchFrom phrase.data none t.data

/-- List prefix test used by the "what does \w+ mean" alternative. -/
def listStartsWith : List Char → List Char → Bool
  | [], _ => true
  | _ :: _, [] => false
  | p :: ps, c :: cs => p == c && listStartsWith ps cs

/-- Anchored match of the regex alternative `what does \w+ mean`
(garden-path free: after \w+ the next pattern character is a space, so the
match consumes exactly the maximal word-character run). -/
def wdmAt (t : List Char) : Bool :=
  listStartsWith ("what does ").data t &&
  (let rest := t.drop 10
   !((rest.takeWhile isWordChar).isEmpty) &&
   matchAt (" mean").data (rest.dropWhile isWordChar))

/-- Search of `what does \w+ mean` with \b on both sides. -/
def wdmFrom : Option Char → List Char → Bool
  | prev, [] => boundaryOK prev && wdmAt []
  | prev, c :: cs => (boundaryOK prev && wdmAt (c :: cs)) || wdmFrom (some c) cs

/-- re.search of the `what does \w+ mean` alternative. -/
def wdmSearch (t : String) : Bool := wdmFrom none t.data

/-- Literal alternatives of INTENT_PATTERNS["definition"]
(gateway/main.py:137); the `what does \w+ mean` alternative is handled by
`wdmSearch`. -/
def definitionPhrases : List String :=
  ["definition", "meaning", "what does it mean", "what does that mean",
   "what is that", "what\x27s that mean", "explain"]

/-- Alternatives of INTENT_PATTERNS["sentence"] (gateway/main.py:141). -/
def sentencePhrases : List String :=
  ["use it in a sentence", "sentence", "example", "use the word"]

/-- Alternatives of INTENT_PATTERNS["repeat"] (gateway/main.py:144). -/
def repeatPhrases : List String :=
  ["repeat", "say it again", "say that again", "one more time",
   "say the word", "what was the word", "again", "hear it again",
   "tell me the word"]

/-- Alternatives of INTENT_PATTERNS["skip"] (gateway/main.py:148). -/
def skipPhrases : List String :=
  ["skip", "next word", "move on", "pass", "skip this", "next one"]

/-- Alternatives of OFF_TOPIC_PATTERN (gateway/main.py:154). -/
def offTopicPhrases : List String :=
  ["what are", "tell me", "who is", "where is", "how do", "can you",
   "do you know", "play", "watch", "netflix", "movie", "game", "song",
   "music", "youtube", "story", "joke", "weather", "time", "news",
   "search", "google", "hey siri", "alexa", "okay google", "what is the",
   "how old", "how many", "sing", "dance", "video", "cartoon", "pokemon",
   "minecraft", "roblox", "fortnite", "chat", "talk about", "help me with"]

/-- pattern.search for an alternation of literal phrases. -/
def intentMatch (phrases : List String) (t : String) : Bool :=
  phrases.any (fun p => hasWB p t)

/-- The intents of the classifier (gateway/main.py:513 lists the values;
the code carries them as strings). -/
inductive Intent where
  | spelling
  | definition
  | sentence
  | repeatIt
  | skip
  | off_topic
deriving Repr, DecidableEq

/-- Redirect message of the off-topic trigger branch (gateway/main.py:180). -/
def OFF_TOPIC_MSG : String :=
  "I can only help with spelling practice! Try spelling the word, or say \x27repeat\x27, \x27definition\x27, or \x27skip\x27."

/-- Redirect message of the long-utterance heuristic (gateway/main.py:188). -/
def OFF_TOPIC_MSG2 : String :=
  "That doesn\x27t sound like spelling. Let\x27s get back to it! Spell the word, or say \x27repeat\x27 or \x27definition\x27."

/-- classify_intent (gateway/main.py:163): blank defaults to spelling;
allowed intents in fixed order; off-topic triggers; the long-utterance
heuristic; default spelling. -/
def classify_intent (transcript : String) : Intent × String :=
  if transcript = "" ∨ pyStrip transcript = "" then (.spelling, "")
  else
    let tx := pyLower (pyStrip transcript)
    if intentMatch definitionPhrases tx || wdmSearch tx then (.definition, "")
    else if intentMatch sentencePhrases tx then (.sentence, "")
    else if intentMatch repeatPhrases tx then (.repeatIt, "")
    else if intentMatch skipPhrases tx then (.skip, "")
    else if intentMatch offTopicPhrases tx then (.off_topic, OFF_TOPIC_MSG)
    else
      let ws := pySplit tx
      if decide (ws.length > 8) &&
         decide (2 * (ws.countP (fun w =>
             decide (w.length ≤ 3) || (LETTER_HOMOPHONES.lookup w).isSome ||
             (NATO.lookup w).isSome)) < ws.length)
      then (.off_topic, OFF_TOPIC_MSG2)
      else (.spelling, "")

/-- score_candidate (gateway/main.py:975): distance of the candidate
length from the target length; an empty candidate gets the sentinel 9999. -/
def score_candidate (target : String) (ls : List Char) : Nat :=
  if ls = [] then 9999
  else max ls.length target.length - min ls.length target.length

/-- Stable insertion of a candidate: placed before the first strictly
worse one, so equal scores keep their original (browser before asr)
order, as Python's stable sort does. -/
def insertByKey (key : List Char → Nat) (x : List Char) :
    List (List Char) → List (List Char)
  | [] => [x]
  | y :: ys => if key x < key y then x :: y :: ys else y :: insertByKey key x ys

/-- Stable sort by score (candidates.sort, gateway/main.py:980). -/
def sortByKey (key : List Char → Nat) (l : List (List Char)) :
    List (List Char) :=
  l.foldl (fun acc x => insertByKey key x acc) []

/-- Deterministic transcript fusion (gateway/main.py:964-982): parse every
non-empty source (browser transcript first), keep the candidate whose
length is closest to the target, empty result when there are no
candidates. -/
def fuse_letters (target browser_tx asr_tx : String) : List Char :=
  let candidates :=
    (if browser_tx ≠ "" then [parse_letters_deterministic browser_tx] else []) ++
    (if asr_tx ≠ "" then [parse_letters_deterministic asr_tx] else [])
  (sortByKey (score_candidate target) candidates).headD []

/-- The output filter of parse_letters_with_llm (gateway/main.py:376-382):
keep only entries that strip-lowercase to a single a-z character. -/
def llm_filter (raw : List String) : List Char :=
  raw.foldr (fun x acc =>
    match (pyLower (pyStrip x)).data with
    | [c] => if isAZ c then c :: acc else acc
    | _ => acc) []

/-- The fallback acceptance policy (gateway/main.py:993-1002): `none`
models a raised transport error (swallowed, deterministic result kept);
otherwise the LLM letters are adopted exactly when they normalize to the
target or are strictly longer than the deterministic result.  The Bool is
the code's `used_llm` flag. -/
def resolve_letters (target_norm : String) (det : List Char) :
    Option (List String) → List Char × Bool
  | none => (det, false)
  | some raw =>
    if normalize_word (String.mk (llm_filter raw)) = target_norm ∨
       det.length < (llm_filter raw).length
    then (llm_filter raw, true)
    else (det, false)

/-- The letters ultimately credited for the turn (gateway/main.py:984-1002):
the fused deterministic letters, replaced by the generative fallback only
when they do not already normalize to the target and the fallback result
is accepted. -/
def credited_letters (target browser_tx asr_tx : String)
    (llm : Option (List String)) : List Char :=
  if normalize_word (String.mk (fuse_letters target browser_tx asr_tx)) ≠
      normalize_word target then
    (resolve_letters (normalize_word target)
      (fuse_letters target browser_tx asr_tx) llm).1
  else fuse_letters target browser_tx asr_tx

/-- The whole-word-recognition fallback of the grader
(gateway/main.py:1010-1024): some source is non-empty and normalizes to
the target, or some whitespace token of a (non-empty) source does. -/
def grade_fallback (target_norm : String) (srcs : List String) : Bool :=
  srcs.any (fun src =>
    (decide (src ≠ "") && (normalize_word src == target_norm)) ||
    (decide (src ≠ "") &&
      (pySplit (pyLower src)).any (fun tok => normalize_word tok == target_norm)))

/-- The grading decision (gateway/main.py:1004-1024): letter-assembly
check, then the whole-word fallback over the two raw sources. -/
def grade (target : String) (letters_list : List Char)
    (browser_tx asr_tx : String) : Bool :=
  (normalize_word (String.mk letters_list) == normalize_word target) ||
  grade_fallback (normalize_word target) [browser_tx, asr_tx]

/-- The `letters` field of the answer (spelled_norm after
gateway/main.py:1004-1024): rewritten to the target exactly when the
letter-assembly check failed but the whole-word fallback fired. -/
def spelled_norm_of (target browser_tx asr_tx : String)
    (llm : Option (List String)) : String :=
  let sp := normalize_word (String.mk (credited_letters target browser_tx asr_tx llm))
  if sp = normalize_word target then sp
  else if grade_fallback (normalize_word target) [browser_tx, asr_tx] then
    normalize_word target
  else sp

/-- RETRY_ON_WRONG (gateway/main.py:48) at its default configuration. -/
def RETRY_ON_WRONG : Nat := 1

/-- Python dict.get(k, 0) on the attempts map (keys are word indices;
the code uses str(idx), which is in bijection with the index). -/
def lookupD (m : List (Nat × Nat)) (k : Nat) : Nat := (m.lookup k).getD 0

/-- Python dict assignment d[k] = v on the attempts map. -/
def setKey : List (Nat × Nat) → Nat → Nat → List (Nat × Nat)
  | [], k, v => [(k, v)]
  | (k0, v0) :: rest, k, v =>
    if k0 = k then (k, v) :: rest else (k0, v0) :: setKey rest k v

/-- The persisted session record (created at gateway/main.py:801). -/
structure Session where
  student_name : String
  words : List String
  idx : Nat
  attempts : List (Nat × Nat)
  score_correct : Nat
  score_total : Nat
  wrong_words : List String
  skipped_words : List String
  word_context : List (String × String × String)
  completed : Bool
  round : Nat
  created_ms : Nat
  last_active_ms : Nat
deriving Repr, DecidableEq

/-- The response model of /turn/answer (gateway/main.py:480); the echoed
session_id and the debug-formatted transcript field are omitted. -/
structure AnswerResponse where
  idx : Nat
  word : String
  letters : String
  correct : Bool
  attempts_for_word : Nat
  feedback_text : String
  next_idx : Nat
  done : Bool
  score_correct : Nat
  score_total : Nat
  wrong_words : List String
  is_guardrail : Bool
deriving Repr, DecidableEq

/-- One answer submission: the optional form transcript, the transcription
of the uploaded audio (`none` when no audio or empty audio was sent), the
outcome of the generative letter-extraction call, and the wall clock. -/
structure TurnInput where
  transcript : Option String
  audio_tx : Option String
  llm : Option (List String)
  now : Nat
deriving Repr, DecidableEq

/-- browser_tx (gateway/main.py:876). -/
def browserTx (inp : TurnInput) : String := pyStrip (inp.transcript.getD "")

/-- asr_tx (gateway/main.py:877-881): the transcription result. -/
def asrTx (inp : TurnInput) : String := inp.audio_tx.getD ""

/-- tx = browser_tx or asr_tx (gateway/main.py:884). -/
def turnTx (inp : TurnInput) : String := pyOr (browserTx inp) (asrTx inp)

/-- The fixed response of an already-finished session
(gateway/main.py:855-871). -/
def allDoneResp (s : Session) : AnswerResponse :=
  { idx := s.idx, word := "", letters := "", correct := true,
    attempts_for_word := 0, feedback_text := "All done!", next_idx := s.idx,
    done := true, score_correct := s.score_correct,
    score_total := s.score_total, wrong_words := s.wrong_words,
    is_guardrail := false }

/-- The off-topic guardrail redirect (gateway/main.py:891-908). -/
def offTopicResp (s : Session) (target msg : String) : AnswerResponse :=
  { idx := s.idx, word := target, letters := "", correct := false,
    attempts_for_word := lookupD s.attempts s.idx,
    feedback_text := pyOr msg OFF_TOPIC_MSG,
    next_idx := s.idx, done := false, score_correct := s.score_correct,
    score_total := s.score_total, wrong_words := [], is_guardrail := true }

/-- The hint table of the meta-intent branch (gateway/main.py:940). -/
def metaHint : Intent → String
  | .definition => "Use the definition button or say it during listening."
  | .sentence => "Use the definition button or say it during listening."
  | .repeatIt => "Tap the speaker icon to hear the word again."
  | _ => ""

/-- The guardrail redirect of a meta intent that reached /turn/answer
(gateway/main.py:937-960). -/
def metaResp (s : Session) (target : String) (i : Intent) : AnswerResponse :=
  { idx := s.idx, word := target, letters := "", correct := false,
    attempts_for_word := lookupD s.attempts s.idx,
    feedback_text := metaHint i,
    next_idx := s.idx, done := false, score_correct := s.score_correct,
    score_total := s.score_total, wrong_words := [], is_guardrail := true }

/-- The skip branch (gateway/main.py:910-935). -/
def skip_turn (s : Session) (inp : TurnInput) (target : String) :
    Session × AnswerResponse :=
  let s2 : Session :=
    { s with skipped_words := s.skipped_words ++ [target], idx := s.idx + 1,
             last_active_ms := inp.now,
             completed := if s.words.length ≤ s.idx + 1 then true else s.completed }
  (s2,
   { idx := s.idx, word := target, letters := "", correct := false,
     attempts_for_word := 0,
     feedback_text := "Skipping " ++ target ++ ". " ++
       (if s.words.length ≤ s.idx + 1 then "You\x27re all done!" else "Next word."),
     next_idx := min (s.idx + 1) s.words.length,
     done := decide (s.words.length ≤ s.idx + 1),
     score_correct := s.score_correct, score_total := s.score_total,
     wrong_words := if s.words.length ≤ s.idx + 1 then s.wrong_words else [],
     is_guardrail := false })

/-- The revealed spelling " ... ".join(list(target_norm))
(gateway/main.py:1051). -/
def revealText (w : String) : String :=
  String.intercalate " ... " (w.data.map (fun c => String.mk [c]))

/-- The spelling branch (gateway/main.py:962-1080): fuse and grade, count
the attempt (attempts = attempts[idx] + 1), add the point, then advance /
ask for a retry / reveal and advance according to the grade and the retry
budget.  The straight-line local variables of the code (the credited
letters, correct, attempts, the partially updated session) are inlined
into each of the three outcome branches. -/
def spelling_turn (s : Session) (inp : TurnInput)
    (target browser_tx asr_tx : String) : Session × AnswerResponse :=
  if grade target (credited_letters target browser_tx asr_tx inp.llm) browser_tx asr_tx then
    ({ s with attempts := setKey s.attempts s.idx (lookupD s.attempts s.idx + 1),
              score_total := s.score_total + 1,
              score_correct := s.score_correct + 1,
              idx := s.idx + 1,
              completed := if s.words.length ≤ s.idx + 1 then true else s.completed,
              last_active_ms := inp.now },
     { idx := s.idx, word := target,
       letters := spelled_norm_of target browser_tx asr_tx inp.llm,
       correct := true,
       attempts_for_word := lookupD s.attempts s.idx + 1,
       feedback_text :=
         if s.words.length ≤ s.idx + 1 then
           "Great job! You finished all " ++ toString s.words.length ++ " words."
         else "Nice! " ++ target ++ " is correct. Next word.",
       next_idx := min (s.idx + 1) s.words.length,
       done := decide (s.words.length ≤ s.idx + 1),
       score_correct := s.score_correct + 1, score_total := s.score_total + 1,
       wrong_words := if s.words.length ≤ s.idx + 1 then s.wrong_words else [],
       is_guardrail := false })
  else if lookupD s.attempts s.idx + 1 ≤ RETRY_ON_WRONG then
    ({ s with attempts := setKey s.attempts s.idx (lookupD s.attempts s.idx + 1),
              score_total := s.score_total + 1,
              last_active_ms := inp.now },
     { idx := s.idx, word := target,
       letters := spelled_norm_of target browser_tx asr_tx inp.llm,
       correct := false,
       attempts_for_word := lookupD s.attempts s.idx + 1,
       feedback_text := "Not quite. Try again.",
       next_idx := min s.idx s.words.length, done := false,
       score_correct := s.score_correct, score_total := s.score_total + 1,
       wrong_words := [], is_guardrail := false })
  else
    ({ s with attempts := setKey s.attempts s.idx (lookupD s.attempts s.idx + 1),
              score_total := s.score_total + 1,
              idx := s.idx + 1,
              wrong_words := s.wrong_words ++ [target],
              completed := if s.words.length ≤ s.idx + 1 then true else s.completed,
              last_active_ms := inp.now },
     { idx := s.idx, word := target,
       letters := spelled_norm_of target browser_tx asr_tx inp.llm,
       correct := false,
       attempts_for_word := lookupD s.attempts s.idx + 1,
       feedback_text :=
         if s.words.length ≤ s.idx + 1 then
           "Not quite. The correct spelling was " ++ revealText (normalize_word target) ++
             ". ... You\x27re done for today!"
         else
           "Not quite. The correct spelling is " ++ revealText (normalize_word target) ++
             ". ... Next word.",
       next_idx := min (s.idx + 1) s.words.length,
       done := decide (s.words.length ≤ s.idx + 1),
       score_correct := s.score_correct, score_total := s.score_total + 1,
       wrong_words := if s.words.length ≤ s.idx + 1 then s.wrong_words ++ [target] else [],
       is_guardrail := false })

/-- The body of turn_answer once the session is loaded
(gateway/main.py:853-1080): the already-finished early return, the
missing-input rejection, then dispatch on the classified intent. -/
def answer_with_session (inp : TurnInput) (s : Session) :
    Except (Nat × String) (Session × AnswerResponse) :=
  if s.words.length ≤ s.idx then .ok (s, allDoneResp s)
  else if turnTx inp = "" then .error (400, "Provide transcript or audio")
  else
    match classify_intent (turnTx inp) with
    | (.off_topic, msg) => .ok (s, offTopicResp s (s.words.getD s.idx "") msg)
    | (.skip, _) => .ok (skip_turn s inp (s.words.getD s.idx ""))
    | (.definition, _) => .ok (s, metaResp s (s.words.getD s.idx "") .definition)
    | (.sentence, _) => .ok (s, metaResp s (s.words.getD s.idx "") .sentence)
    | (.repeatIt, _) => .ok (s, metaResp s (s.words.getD s.idx "") .repeatIt)
    | (.spelling, _) =>
      .ok (spelling_turn s inp (s.words.getD s.idx "") (browserTx inp) (asrTx inp))

/-- turn_answer (gateway/main.py:843-1080).  `none` for the session is an
unknown session id.  A raised HTTPException is `Except.error (status,
detail)`; the `.ok` payload is the session as persisted (equal to the
input session on the branches that do not call _save_session) together
with the response body. -/
def turn_answer (inp : TurnInput) (s? : Option Session) :
    Except (Nat × String) (Session × AnswerResponse) :=
  match s? with
  | none => .error (404, "Unknown session_id")
  | some s => answer_with_session inp s

/-- start_session (gateway/main.py:794-822): normalize and filter the
requested words; `none` models the 400 "No valid words" rejection. -/
def start_session (req_words : List String) (student_name : Option String)
    (now : Nat) : Option Session :=
  if (req_words.map normalize_word).filter (fun w => w ≠ "") = [] then none
  else some
    { student_name := pyOr (student_name.getD "") "Student",
      words := (req_words.map normalize_word).filter (fun w => w ≠ ""),
      idx := 0, attempts := [], score_correct := 0,
      score_total := 0, wrong_words := [], skipped_words := [],
      word_context := [], completed := false, round := 1,
      created_ms := now, last_active_ms := now }

/-- Sessions reachable from a session start through any sequence of
/turn/answer submissions. -/
inductive Reachable : Session → Prop where
  | start (req : List String) (name : Option String) (t0 : Nat) (s0 : Session) :
      start_session req name t0 = some s0 → Reachable s0
  | step (s : Session) (inp : TurnInput) (s2 : Session) (r : AnswerResponse) :
      Reachable s → turn_answer inp (some s) = .ok (s2, r) → Reachable s2

/-- A run of consecutive answer submissions, each classified as a spelling
attempt and graded correct. -/
def CorrectTurns : Session → List TurnInput → Session → Prop
  | s, [], sF => sF = s
  | s, inp :: rest, sF =>
    ∃ s2 r, turn_answer inp (some s) = .ok (s2, r) ∧
      (classify_intent (turnTx inp)).1 = Intent.spelling ∧
      r.correct = true ∧ CorrectTurns s2 rest sF

/-- The letters of a word joined by single spaces ("cat" becomes "c a t"). -/
def spacedLetters (w : String) : String :=
  String.mk (List.intersperse ' ' w.data)

/-! Helper lemmas. -/

theorem isAZ_iff {c : Char} : isAZ c = true ↔ ('a' ≤ c ∧ c ≤ 'z') := by
  simp [isAZ]

theorem lookup_mem_snd {α β : Type} [BEq α] {m : List (α × β)} {k : α} {v : β}
    (h : m.lookup k = some v) : v ∈ m.map Prod.snd := by
  induction m with
  | nil => simp [List.lookup] at h
  | cons p rest ih =>
    obtain ⟨a, b⟩ := p
    rw [List.lookup] at h
    split at h
    · cases h; simp
    · simpa using Or.inr (ih h)

theorem nato_values_az : ∀ v ∈ NATO.map Prod.snd, isAZ v = true := by decide

theorem homophone_values_az : ∀ v ∈ LETTER_HOMOPHONES.map Prod.snd, isAZ v = true := by
  decide

theorem space_cases {c : Char} (h : isSpaceChar c = true) :
    c = ' ' ∨ c = '\t' ∨ c = '\n' ∨ c = '\r' ∨ c = '\x0b' ∨ c = '\x0c' := by
  simpa [isSpaceChar, or_assoc] using h

theorem space_not_alpha {c : Char} (h : isSpaceChar c = true) :
    Char.isAlpha c = false := by
  rcases space_cases h with h2 | h2 | h2 | h2 | h2 | h2 <;> subst h2 <;> decide

theorem space_toLower_not_az {c : Char} (h : isSpaceChar c = true) :
    isAZ (Char.toLower c) = false := by
  rcases space_cases h with h2 | h2 | h2 | h2 | h2 | h2 <;> subst h2 <;> decide

theorem splitWSAux_subset :
    ∀ (l acc tok : List Char), tok ∈ splitWSAux l acc →
      ∀ c ∈ tok, c ∈ l ∨ c ∈ acc := by
  intro l
  induction l with
  | nil =>
    intro acc tok h c hc
    rw [splitWSAux] at h
    split at h
    · simp at h
    · simp only [List.mem_singleton] at h
      subst h
      exact Or.inr (List.mem_reverse.1 hc)
  | cons a t ih =>
    intro acc tok h c hc
    rw [splitWSAux] at h
    split at h
    · split at h
      · rcases ih [] tok h c hc with h2 | h2
        · exact Or.inl (List.mem_cons_of_mem a h2)
        · simp at h2
      · rcases List.mem_cons.1 h with h2 | h2
        · subst h2
          exact Or.inr (List.mem_reverse.1 hc)
        · rcases ih [] tok h2 c hc with h3 | h3
          · exact Or.inl (List.mem_cons_of_mem a h3)
          · simp at h3
    · rcases ih (a :: acc) tok h c hc with h2 | h2
      · exact Or.inl (List.mem_cons_of_mem a h2)
      · rcases List.mem_cons.1 h2 with h3 | h3
        · exact Or.inl (h3 ▸ List.mem_cons_self a t)
        · exact Or.inr h3

theorem parse_token_az (tok : List Char)
    (hd : ∀ c ∈ tok, isAZ c = true ∨ isSpaceChar c = true ∨ c = '-') :
    ∀ c ∈ parse_token tok, isAZ c = true := by
  intro c hc
  unfold parse_token at hc
  split at hc
  · rename_i l hl
    simp only [List.mem_singleton] at hc
    subst hc
    exact nato_values_az c (lookup_mem_snd hl)
  · split at hc
    · rename_i l hl
      simp only [List.mem_singleton] at hc
      subst hc
      exact homophone_values_az c (lookup_mem_snd hl)
    · split at hc
      · rename_i hcond
        exact List.all_eq_true.1 (Bool.and_elim_right hcond) c hc
      · split at hc
        · rename_i hcond
          have halpha : Char.isAlpha c = true :=
            List.all_eq_true.1 (Bool.and_elim_right hcond) c hc
          rcases hd c hc with h2 | h2 | h2
          · exact h2
          · rw [space_not_alpha h2] at halpha; cases halpha
          · subst h2; cases halpha
        · simp at hc

/-- C9: for every input string, the deterministic letter parser terminates
(it is a total Lean function) and returns only characters in a-z. -/
theorem c9_parser_total_az (t : String) (c : Char)
    (hc : c ∈ parse_letters_deterministic t) : 'a' ≤ c ∧ c ≤ 'z' := by
  rw [← isAZ_iff]
  unfold parse_letters_deterministic at hc
  split at hc
  · simp at hc
  · simp only [List.mem_flatten, List.mem_map] at hc
    obtain ⟨lt, ⟨tok, htok, rfl⟩, hclt⟩ := hc
    refine parse_token_az tok ?_ c hclt
    intro d hd
    rcases splitWSAux_subset _ _ _ htok d hd with h2 | h2
    · rcases List.mem_map.1 h2 with ⟨e, _, he⟩
      by_cases hcond : (isAZ e || isSpaceChar e || e == '-') = true
      · rw [if_pos hcond] at he
        subst he
        simpa [Bool.or_eq_true, or_assoc] using hcond
      · rw [if_neg hcond] at he
        subst he
        exact Or.inr (Or.inl rfl)
    · simp at h2

/-- Witness for C9 at a concrete transcript. -/
theorem c9_parser_total_az_witness :
    'c' ∈ parse_letters_deterministic "see ay tee" ∧ ('a' ≤ 'c' ∧ 'c' ≤ 'z') :=
  ⟨by decide, c9_parser_total_az "see ay tee" 'c' (by decide)⟩

theorem filter_map_dropWhile_space (l : List Char) :
    ((l.dropWhile isSpaceChar).map Char.toLower).filter isAZ =
      (l.map Char.toLower).filter isAZ := by
  induction l with
  | nil => rfl
  | cons a t ih =>
    by_cases h : isSpaceChar a = true
    · rw [List.dropWhile_cons, if_pos h, ih, List.map_cons, List.filter_cons,
        space_toLower_not_az h]
      simp
    · rw [List.dropWhile_cons, if_neg h]

theorem strip_norm_aux (l : List Char) :
    ((stripList l).map Char.toLower).filter isAZ =
      (l.map Char.toLower).filter isAZ := by
  simp [stripList, List.map_reverse, List.filter_reverse,
    filter_map_dropWhile_space, List.reverse_reverse]

theorem norm_eq_core (w : String) :
    normalize_word w = String.mk ((w.data.map Char.toLower).filter isAZ) :=
  congrArg String.mk (strip_norm_aux w.data)

theorem filter_map_intersperse (l : List Char) :
    ((List.intersperse ' ' l).map Char.toLower).filter isAZ =
      (l.map Char.toLower).filter isAZ := by
  induction l with
  | nil => rfl
  | cons a t ih =>
    cases t with
    | nil => rfl
    | cons b t2 =>
      have he : List.intersperse ' ' (a :: b :: t2) =
          a :: ' ' :: List.intersperse ' ' (b :: t2) := rfl
      have hsp : isAZ (Char.toLower ' ') = false := rfl
      simp only [he, List.map_cons, List.filter_cons, hsp, Bool.false_eq_true,
        if_false, ih]

theorem normalize_spaced (w : String) :
    normalize_word (spacedLetters w) = normalize_word w := by
  rw [norm_eq_core, norm_eq_core]
  exact congrArg String.mk (filter_map_intersperse w.data)

theorem mem_pySplit_ne_empty {tok src : String}
    (h : tok ∈ pySplit (pyLower src)) : src ≠ "" := by
  intro h2
  subst h2
  have he : pySplit (pyLower "") = [] := rfl
  rw [he] at h
  exact absurd h (List.not_mem_nil tok)

theorem norm_src_ne_empty {src Tn : String} (hT : Tn ≠ "")
    (h : normalize_word src = Tn) : src ≠ "" := by
  intro h2
  subst h2
  exact hT (h.symm.trans rfl)

/-- C2: the grading decision returns correct exactly when the fused letters
normalize to the target, or an entire raw source normalizes to the target,
or some whitespace token of a raw source does; in particular a transcript
equal to the target itself, or to the target letters joined by spaces,
grades correct. -/
theorem c2_grading_iff (target : String) (letters : List Char)
    (src1 src2 : String) (hT : normalize_word target ≠ "") :
    (grade target letters src1 src2 = true ↔
      (normalize_word (String.mk letters) = normalize_word target ∨
       (∃ src ∈ [src1, src2], normalize_word src = normalize_word target) ∨
       (∃ src ∈ [src1, src2], ∃ tok ∈ pySplit (pyLower src),
          normalize_word tok = normalize_word target))) ∧
    grade target letters target src2 = true ∧
    grade target letters src1 target = true ∧
    grade target letters (spacedLetters target) src2 = true := by
  have giff : ∀ sa sb : String,
      grade target letters sa sb = true ↔
        (normalize_word (String.mk letters) = normalize_word target ∨
         (∃ src ∈ [sa, sb], normalize_word src = normalize_word target) ∨
         (∃ src ∈ [sa, sb], ∃ tok ∈ pySplit (pyLower src),
            normalize_word tok = normalize_word target)) := by
    intro sa sb
    have h1 : normalize_word sa = normalize_word target → sa ≠ "" :=
      fun h => norm_src_ne_empty hT h
    have h2 : normalize_word sb = normalize_word target → sb ≠ "" :=
      fun h => norm_src_ne_empty hT h
    have h3 : (∃ tok ∈ pySplit (pyLower sa),
        normalize_word tok = normalize_word target) → sa ≠ "" :=
      fun h => by obtain ⟨tok, htok, -⟩ := h; exact mem_pySplit_ne_empty htok
    have h4 : (∃ tok ∈ pySplit (pyLower sb),
        normalize_word tok = normalize_word target) → sb ≠ "" :=
      fun h => by obtain ⟨tok, htok, -⟩ := h; exact mem_pySplit_ne_empty htok
    unfold grade grade_fallback
    simp only [List.any_cons, List.any_nil, Bool.or_false, Bool.or_eq_true,
      Bool.and_eq_true, beq_iff_eq, decide_eq_true_eq, List.any_eq_true,
      List.mem_cons, List.mem_singleton, List.not_mem_nil, exists_eq_or_imp,
      exists_eq_left, false_or, or_false]
    constructor
    · rintro (h | (⟨-, h⟩ | ⟨-, h⟩) | ⟨-, h⟩ | ⟨-, h⟩)
      · exact Or.inl h
      · exact Or.inr (Or.inl (Or.inl h))
      · exact Or.inr (Or.inr (Or.inl h))
      · exact Or.inr (Or.inl (Or.inr h))
      · exact Or.inr (Or.inr (Or.inr h))
    · rintro (h | (h | h) | h | h)
      · exact Or.inl h
      · exact Or.inr (Or.inl (Or.inl ⟨h1 h, h⟩))
      · exact Or.inr (Or.inr (Or.inl ⟨h2 h, h⟩))
      · exact Or.inr (Or.inl (Or.inr ⟨h3 h, h⟩))
      · exact Or.inr (Or.inr (Or.inr ⟨h4 h, h⟩))
  refine ⟨giff src1 src2, ?_, ?_, ?_⟩
  · exact (giff target src2).2 (Or.inr (Or.inl ⟨target, by simp, rfl⟩))
  · exact (giff src1 target).2 (Or.inr (Or.inl ⟨target, by simp, rfl⟩))
  · exact (giff (spacedLetters target) src2).2
      (Or.inr (Or.inl ⟨spacedLetters target, by simp, normalize_spaced target⟩))

/-- Witness for C2 at a concrete target, letter list and sources. -/
theorem c2_grading_iff_witness :
    normalize_word "cat" ≠ "" ∧
    (grade "cat" ['x'] "dog" "cat" = true ∧
     grade "cat" ['x'] (spacedLetters "cat") "dog" = true) := by
  refine ⟨by decide, ?_, ?_⟩
  · exact (c2_grading_iff "cat" ['x'] "dog" "dog" (by decide)).2.2.1
  · exact (c2_grading_iff "cat" ['x'] "nope" "dog" (by decide)).2.2.2

theorem turn_answer_some (inp : TurnInput) (s : Session) :
    turn_answer inp (some s) = answer_with_session inp s := rfl

theorem turn_answer_none (inp : TurnInput) :
    turn_answer inp none = .error (404, "Unknown session_id") := rfl

theorem turn_answer_done (inp : TurnInput) (s : Session)
    (h : s.words.length ≤ s.idx) :
    turn_answer inp (some s) = .ok (s, allDoneResp s) := by
  rw [turn_answer_some]
  unfold answer_with_session
  rw [if_pos h]

theorem turn_answer_noTx (inp : TurnInput) (s : Session)
    (hlt : s.idx < s.words.length) (htx : turnTx inp = "") :
    turn_answer inp (some s) = .error (400, "Provide transcript or audio") := by
  rw [turn_answer_some]
  unfold answer_with_session
  rw [if_neg (by omega), if_pos htx]

theorem turn_answer_off_topic (inp : TurnInput) (s : Session) (m : String)
    (hlt : s.idx < s.words.length)
    (hcl : classify_intent (turnTx inp) = (Intent.off_topic, m)) :
    turn_answer inp (some s) =
      .ok (s, offTopicResp s (s.words.getD s.idx "") m) := by
  have htx : turnTx inp ≠ "" := by
    intro h2
    rw [h2] at hcl
    have he : classify_intent "" = (Intent.spelling, "") := rfl
    rw [he] at hcl
    cases Prod.mk.inj hcl |>.1
  rw [turn_answer_some]
  unfold answer_with_session
  rw [if_neg (by omega), if_neg htx, hcl]

theorem turn_answer_skip (inp : TurnInput) (s : Session) (m : String)
    (hlt : s.idx < s.words.length)
    (hcl : classify_intent (turnTx inp) = (Intent.skip, m)) :
    turn_answer inp (some s) = .ok (skip_turn s inp (s.words.getD s.idx "")) := by
  have htx : turnTx inp ≠ "" := by
    intro h2
    rw [h2] at hcl
    have he : classify_intent "" = (Intent.spelling, "") := rfl
    rw [he] at hcl
    cases Prod.mk.inj hcl |>.1
  rw [turn_answer_some]
  unfold answer_with_session
  rw [if_neg (by omega), if_neg htx, hcl]

theorem turn_answer_meta (inp : TurnInput) (s : Session) (i : Intent) (m : String)
    (hlt : s.idx < s.words.length)
    (hi : i = Intent.definition ∨ i = Intent.sentence ∨ i = Intent.repeatIt)
    (hcl : classify_intent (turnTx inp) = (i, m)) :
    turn_answer inp (some s) = .ok (s, metaResp s (s.words.getD s.idx "") i) := by
  have htx : turnTx inp ≠ "" := by
    intro h2
    rw [h2] at hcl
    have he : classify_intent "" = (Intent.spelling, "") := rfl
    rw [he] at hcl
    obtain ⟨h3, -⟩ := Prod.mk.inj hcl
    rcases hi with h | h | h <;> rw [h] at h3 <;> cases h3
  rw [turn_answer_some]
  unfold answer_with_session
  rw [if_neg (by omega), if_neg htx, hcl]
  rcases hi with h | h | h <;> subst h <;> rfl

theorem turn_answer_spelling (inp : TurnInput) (s : Session) (m : String)
    (hlt : s.idx < s.words.length) (htx : turnTx inp ≠ "")
    (hcl : classify_intent (turnTx inp) = (Intent.spelling, m)) :
    turn_answer inp (some s) =
      .ok (spelling_turn s inp (s.words.getD s.idx "") (browserTx inp) (asrTx inp)) := by
  rw [turn_answer_some]
  unfold answer_with_session
  rw [if_neg (by omega), if_neg htx, hcl]

theorem spelling_turn_snd_correct (s : Session) (inp : TurnInput) (t b a : String) :
    (spelling_turn s inp t b a).2.correct =
      grade t (credited_letters t b a inp.llm) b a := by
  unfold spelling_turn
  split
  · rename_i h; exact h.symm
  · rename_i h
    have hf : grade t (credited_letters t b a inp.llm) b a = false :=
      Bool.eq_false_iff.mpr h
    split <;> exact hf.symm

theorem spelling_turn_correct_eq (s : Session) (inp : TurnInput) (t b a : String)
    (hg : grade t (credited_letters t b a inp.llm) b a = true) :
    spelling_turn s inp t b a =
      ({ s with attempts := setKey s.attempts s.idx (lookupD s.attempts s.idx + 1),
                score_total := s.score_total + 1,
                score_correct := s.score_correct + 1,
                idx := s.idx + 1,
                completed := if s.words.length ≤ s.idx + 1 then true else s.completed,
                last_active_ms := inp.now },
       { idx := s.idx, word := t, letters := spelled_norm_of t b a inp.llm,
         correct := true,
         attempts_for_word := lookupD s.attempts s.idx + 1,
         feedback_text :=
           if s.words.length ≤ s.idx + 1 then
             "Great job! You finished all " ++ toString s.words.length ++ " words."
           else "Nice! " ++ t ++ " is correct. Next word.",
         next_idx := min (s.idx + 1) s.words.length,
         done := decide (s.words.length ≤ s.idx + 1),
         score_correct := s.score_correct + 1, score_total := s.score_total + 1,
         wrong_words := if s.words.length ≤ s.idx + 1 then s.wrong_words else [],
         is_guardrail := false }) := by
  unfold spelling_turn
  rw [if_pos hg]

theorem spelling_turn_retry_eq (s : Session) (inp : TurnInput) (t b a : String)
    (hg : grade t (credited_letters t b a inp.llm) b a = false)
    (ha : lookupD s.attempts s.idx + 1 ≤ RETRY_ON_WRONG) :
    spelling_turn s inp t b a =
      ({ s with attempts := setKey s.attempts s.idx (lookupD s.attempts s.idx + 1),
                score_total := s.score_total + 1,
                last_active_ms := inp.now },
       { idx := s.idx, word := t, letters := spelled_norm_of t b a inp.llm,
         correct := false,
         attempts_for_word := lookupD s.attempts s.idx + 1,
         feedback_text := "Not quite. Try again.",
         next_idx := min s.idx s.words.length, done := false,
         score_correct := s.score_correct, score_total := s.score_total + 1,
         wrong_words := [], is_guardrail := false }) := by
  unfold spelling_turn
  rw [if_neg (by simp [hg]), if_pos ha]

theorem spelling_turn_miss_eq (s : Session) (inp : TurnInput) (t b a : String)
    (hg : grade t (credited_letters t b a inp.llm) b a = false)
    (ha : ¬ (lookupD s.attempts s.idx + 1 ≤ RETRY_ON_WRONG)) :
    spelling_turn s inp t b a =
      ({ s with attempts := setKey s.attempts s.idx (lookupD s.attempts s.idx + 1),
                score_total := s.score_total + 1,
                idx := s.idx + 1,
                wrong_words := s.wrong_words ++ [t],
                completed := if s.words.length ≤ s.idx + 1 then true else s.completed,
                last_active_ms := inp.now },
       { idx := s.idx, word := t, letters := spelled_norm_of t b a inp.llm,
         correct := false,
         attempts_for_word := lookupD s.attempts s.idx + 1,
         feedback_text :=
           if s.words.length ≤ s.idx + 1 then
             "Not quite. The correct spelling was " ++ revealText (normalize_word t) ++
               ". ... You\x27re done for today!"
           else
             "Not quite. The correct spelling is " ++ revealText (normalize_word t) ++
               ". ... Next word.",
         next_idx := min (s.idx + 1) s.words.length,
         done := decide (s.words.length ≤ s.idx + 1),
         score_correct := s.score_correct, score_total := s.score_total + 1,
         wrong_words := if s.words.length ≤ s.idx + 1 then s.wrong_words ++ [t] else [],
         is_guardrail := false }) := by
  unfold spelling_turn
  rw [if_neg (by simp [hg]), if_neg ha]

theorem lookupD_setKey_self (m : List (Nat × Nat)) (k v : Nat) :
    lookupD (setKey m k v) k = v := by
  induction m with
  | nil => simp [setKey, lookupD, List.lookup]
  | cons p rest ih =>
    obtain ⟨k0, v0⟩ := p
    unfold setKey
    by_cases h : k0 = k
    · rw [if_pos h]
      simp [lookupD, List.lookup]
    · rw [if_neg h]
      have hb : (k == k0) = false := beq_eq_false_iff_ne.mpr (Ne.symm h)
      simpa [lookupD, List.lookup, hb] using ih

theorem turn_ok_cases (inp : TurnInput) (s s2 : Session) (r : AnswerResponse)
    (hok : turn_answer inp (some s) = .ok (s2, r)) :
    s2 = s ∨
    (s.idx < s.words.length ∧ (s2, r) = skip_turn s inp (s.words.getD s.idx "")) ∨
    (s.idx < s.words.length ∧
      (s2, r) = spelling_turn s inp (s.words.getD s.idx "") (browserTx inp) (asrTx inp)) := by
  by_cases hge : s.words.length ≤ s.idx
  · rw [turn_answer_done inp s hge] at hok
    exact Or.inl (Prod.mk.inj (Except.ok.inj hok)).1.symm
  · have hlt : s.idx < s.words.length := by omega
    by_cases htx : turnTx inp = ""
    · rw [turn_answer_noTx inp s hlt htx] at hok
      simp at hok
    · rcases hcl : classify_intent (turnTx inp) with ⟨i, m⟩
      cases i
      · rw [turn_answer_spelling inp s m hlt htx hcl] at hok
        exact Or.inr (Or.inr ⟨hlt, (Except.ok.inj hok).symm⟩)
      · rw [turn_answer_meta inp s Intent.definition m hlt (Or.inl rfl) hcl] at hok
        exact Or.inl (Prod.mk.inj (Except.ok.inj hok)).1.symm
      · rw [turn_answer_meta inp s Intent.sentence m hlt (Or.inr (Or.inl rfl)) hcl] at hok
        exact Or.inl (Prod.mk.inj (Except.ok.inj hok)).1.symm
      · rw [turn_answer_meta inp s Intent.repeatIt m hlt (Or.inr (Or.inr rfl)) hcl] at hok
        exact Or.inl (Prod.mk.inj (Except.ok.inj hok)).1.symm
      · rw [turn_answer_skip inp s m hlt hcl] at hok
        exact Or.inr (Or.inl ⟨hlt, (Except.ok.inj hok).symm⟩)
      · rw [turn_answer_off_topic inp s m hlt hcl] at hok
        exact Or.inl (Prod.mk.inj (Except.ok.inj hok)).1.symm

theorem spelling_fst_shape (s : Session) (inp : TurnInput) (t b a : String) :
    ((spelling_turn s inp t b a).1.words = s.words ∧
     (spelling_turn s inp t b a).1.score_total = s.score_total + 1 ∧
     ((spelling_turn s inp t b a).1.score_correct = s.score_correct ∨
      (spelling_turn s inp t b a).1.score_correct = s.score_correct + 1)) ∧
    (((spelling_turn s inp t b a).1.idx = s.idx ∧
      (spelling_turn s inp t b a).1.completed = s.completed) ∨
     ((spelling_turn s inp t b a).1.idx = s.idx + 1 ∧
      (spelling_turn s inp t b a).1.completed =
        (if s.words.length ≤ s.idx + 1 then true else s.completed))) := by
  by_cases hg : grade t (credited_letters t b a inp.llm) b a = true
  · rw [spelling_turn_correct_eq s inp t b a hg]
    exact ⟨⟨rfl, rfl, Or.inr rfl⟩, Or.inr ⟨rfl, rfl⟩⟩
  · have hgf := Bool.eq_false_iff.mpr hg
    by_cases ha : lookupD s.attempts s.idx + 1 ≤ RETRY_ON_WRONG
    · rw [spelling_turn_retry_eq s inp t b a hgf ha]
      exact ⟨⟨rfl, rfl, Or.inl rfl⟩, Or.inl ⟨rfl, rfl⟩⟩
    · rw [spelling_turn_miss_eq s inp t b a hgf ha]
      exact ⟨⟨rfl, rfl, Or.inl rfl⟩, Or.inr ⟨rfl, rfl⟩⟩

theorem completed_decide {len idx : Nat} {c : Bool}
    (hc : c = decide (len ≤ idx)) (hlt : idx < len) :
    (if len ≤ idx + 1 then true else c) = decide (len ≤ idx + 1) := by
  by_cases h : len ≤ idx + 1
  · rw [if_pos h]
    exact (decide_eq_true h).symm
  · rw [if_neg h, hc, decide_eq_false (by omega), decide_eq_false h]

theorem start_session_fields (req : List String) (name : Option String)
    (t0 : Nat) (s0 : Session) (h : start_session req name t0 = some s0) :
    s0.idx = 0 ∧ s0.score_correct = 0 ∧ s0.score_total = 0 ∧
    s0.completed = false ∧ s0.attempts = [] ∧ s0.wrong_words = [] ∧
    s0.skipped_words = [] ∧ 0 < s0.words.length := by
  unfold start_session at h
  split at h
  · cases h
  · rename_i hw
    cases h
    exact ⟨rfl, rfl, rfl, rfl, rfl, rfl, rfl, List.length_pos.mpr hw⟩

theorem reachable_inv (s : Session) (h : Reachable s) :
    s.idx ≤ s.words.length ∧ s.completed = decide (s.words.length ≤ s.idx) := by
  induction h with
  | start req name t0 s0 h0 =>
    obtain ⟨hidx, -, -, hc, -, -, -, hlen⟩ := start_session_fields req name t0 s0 h0
    refine ⟨by omega, ?_⟩
    rw [hc, hidx]
    symm
    rw [decide_eq_false_iff_not]
    omega
  | step s inp s2 r hr hok ih =>
    rcases turn_ok_cases inp s s2 r hok with h2 | ⟨hlt, h2⟩ | ⟨hlt, h2⟩
    · subst h2; exact ih
    · have hs2 : s2 = (skip_turn s inp (s.words.getD s.idx "")).1 :=
        congrArg Prod.fst h2
      have hw : (skip_turn s inp (s.words.getD s.idx "")).1.words = s.words := rfl
      have hi : (skip_turn s inp (s.words.getD s.idx "")).1.idx = s.idx + 1 := rfl
      have hc : (skip_turn s inp (s.words.getD s.idx "")).1.completed =
          (if s.words.length ≤ s.idx + 1 then true else s.completed) := rfl
      rw [hs2, hw, hi, hc]
      exact ⟨by omega, completed_decide ih.2 hlt⟩
    · have hs2 : s2 =
          (spelling_turn s inp (s.words.getD s.idx "") (browserTx inp) (asrTx inp)).1 :=
        congrArg Prod.fst h2
      obtain ⟨⟨hw, -, -⟩, hcase | hcase⟩ :=
        spelling_fst_shape s inp (s.words.getD s.idx "") (browserTx inp) (asrTx inp)
      · rw [hs2, hw, hcase.1, hcase.2]
        exact ⟨by omega, ih.2⟩
      · rw [hs2, hw, hcase.1, hcase.2]
        exact ⟨by omega, completed_decide ih.2 hlt⟩

theorem score_step_pres (u : Session) (inp : TurnInput) (u2 : Session)
    (r : AnswerResponse) (hle : u.score_correct ≤ u.score_total)
    (hok : turn_answer inp (some u) = .ok (u2, r)) :
    u2.score_correct ≤ u2.score_total := by
  rcases turn_ok_cases inp u u2 r hok with h2 | ⟨hlt, h2⟩ | ⟨hlt, h2⟩
  · subst h2; exact hle
  · have hs2 : u2 = (skip_turn u inp (u.words.getD u.idx "")).1 :=
      congrArg Prod.fst h2
    rw [hs2]
    exact hle
  · have hs2 : u2 =
        (spelling_turn u inp (u.words.getD u.idx "") (browserTx inp) (asrTx inp)).1 :=
      congrArg Prod.fst h2
    obtain ⟨⟨-, hst, hsc | hsc⟩, -⟩ :=
      spelling_fst_shape u inp (u.words.getD u.idx "") (browserTx inp) (asrTx inp)
    · rw [hs2, hsc, hst]
      omega
    · rw [hs2, hsc, hst]
      omega

/-- C7: once a session is completed (idx equals the number of words),
every further submission returns the fixed "All done!" result and mutates
neither the scores, nor the attempts, nor the index (the stored session is
returned unchanged). -/
theorem c7_terminal_no_mutation (s : Session) (inp : TurnInput)
    (h : s.idx = s.words.length) :
    turn_answer inp (some s) = .ok (s, allDoneResp s) ∧
    (allDoneResp s).feedback_text = "All done!" ∧
    (allDoneResp s).done = true ∧
    (allDoneResp s).score_correct = s.score_correct ∧
    (allDoneResp s).score_total = s.score_total :=
  ⟨turn_answer_done inp s (by omega), rfl, rfl, rfl, rfl⟩

/-- Witness for C7 on a concrete completed session. -/
theorem c7_terminal_no_mutation_witness :
    ({ student_name := "Student", words := ["cat"], idx := 1,
       attempts := [(0, 1)], score_correct := 1, score_total := 1,
       wrong_words := [], skipped_words := [], word_context := [],
       completed := true, round := 1, created_ms := 0,
       last_active_ms := 7 } : Session).idx =
      ({ student_name := "Student", words := ["cat"], idx := 1,
         attempts := [(0, 1)], score_correct := 1, score_total := 1,
         wrong_words := [], skipped_words := [], word_context := [],
         completed := true, round := 1, created_ms := 0,
         last_active_ms := 7 } : Session).words.length ∧
    turn_answer ⟨some "c a t", none, none, 9⟩
      (some { student_name := "Student", words := ["cat"], idx := 1,
              attempts := [(0, 1)], score_correct := 1, score_total := 1,
              wrong_words := [], skipped_words := [], word_context := [],
              completed := true, round := 1, created_ms := 0,
              last_active_ms := 7 }) =
      .ok ({ student_name := "Student", words := ["cat"], idx := 1,
             attempts := [(0, 1)], score_correct := 1, score_total := 1,
             wrong_words := [], skipped_words := [], word_context := [],
             completed := true, round := 1, created_ms := 0,
             last_active_ms := 7 },
           allDoneResp
             ({ student_name := "Student", words := ["cat"], idx := 1,
                attempts := [(0, 1)], score_correct := 1, score_total := 1,
                wrong_words := [], skipped_words := [], word_context := [],
                completed := true, round := 1, created_ms := 0,
                last_active_ms := 7 } : Session)) :=
  ⟨rfl, (c7_terminal_no_mutation _ ⟨some "c a t", none, none, 9⟩ rfl).1⟩

/-- C6: a guardrail turn (off-topic, or a definition/sentence/repeat meta
intent reaching the answer stage) mutates no session field — in
particular not the scores, the attempts or the index — and the response
carries is_guardrail = true with the next index equal to the current
index. -/
theorem c6_guardrail_frame (s : Session) (inp : TurnInput) (s2 : Session)
    (r : AnswerResponse)
    (hlt : s.idx < s.words.length)
    (hok : turn_answer inp (some s) = .ok (s2, r))
    (hcl : (classify_intent (turnTx inp)).1 = Intent.off_topic ∨
           (classify_intent (turnTx inp)).1 = Intent.definition ∨
           (classify_intent (turnTx inp)).1 = Intent.sentence ∨
           (classify_intent (turnTx inp)).1 = Intent.repeatIt) :
    s2.score_correct = s.score_correct ∧ s2.score_total = s.score_total ∧
    s2.attempts = s.attempts ∧ s2.idx = s.idx ∧
    s2.student_name = s.student_name ∧ s2.words = s.words ∧
    s2.wrong_words = s.wrong_words ∧ s2.skipped_words = s.skipped_words ∧
    s2.word_context = s.word_context ∧ s2.completed = s.completed ∧
    s2.round = s.round ∧ s2.created_ms = s.created_ms ∧
    s2.last_active_ms = s.last_active_ms ∧
    r.is_guardrail = true ∧ r.next_idx = s.idx ∧
    r.score_correct = s.score_correct ∧ r.score_total = s.score_total := by
  rcases hcl2 : classify_intent (turnTx inp) with ⟨i, m⟩
  rw [hcl2] at hcl
  rcases hcl with hi | hi | hi | hi
  · have hi2 : i = Intent.off_topic := hi
    subst hi2
    rw [turn_answer_off_topic inp s m hlt hcl2] at hok
    obtain ⟨h1, h2⟩ := Prod.mk.inj (Except.ok.inj hok)
    subst h1
    rw [← h2]
    exact ⟨rfl, rfl, rfl, rfl, rfl, rfl, rfl, rfl, rfl, rfl, rfl, rfl, rfl,
      rfl, rfl, rfl, rfl⟩
  · have hi2 : i = Intent.definition := hi
    subst hi2
    rw [turn_answer_meta inp s Intent.definition m hlt (Or.inl rfl) hcl2] at hok
    obtain ⟨h1, h2⟩ := Prod.mk.inj (Except.ok.inj hok)
    subst h1
    rw [← h2]
    exact ⟨rfl, rfl, rfl, rfl, rfl, rfl, rfl, rfl, rfl, rfl, rfl, rfl, rfl,
      rfl, rfl, rfl, rfl⟩
  · have hi2 : i = Intent.sentence := hi
    subst hi2
    rw [turn_answer_meta inp s Intent.sentence m hlt (Or.inr (Or.inl rfl)) hcl2] at hok
    obtain ⟨h1, h2⟩ := Prod.mk.inj (Except.ok.inj hok)
    subst h1
    rw [← h2]
    exact ⟨rfl, rfl, rfl, rfl, rfl, rfl, rfl, rfl, rfl, rfl, rfl, rfl, rfl,
      rfl, rfl, rfl, rfl⟩
  · have hi2 : i = Intent.repeatIt := hi
    subst hi2
    rw [turn_answer_meta inp s Intent.repeatIt m hlt (Or.inr (Or.inr rfl)) hcl2] at hok
    obtain ⟨h1, h2⟩ := Prod.mk.inj (Except.ok.inj hok)
    subst h1
    rw [← h2]
    exact ⟨rfl, rfl, rfl, rfl, rfl, rfl, rfl, rfl, rfl, rfl, rfl, rfl, rfl,
      rfl, rfl, rfl, rfl⟩

/-- Witness for C6: the off-topic scenario "can you play a song". -/
theorem c6_guardrail_frame_witness :
    (classify_intent (turnTx ⟨some "can you play a song", none, none, 7⟩)).1 =
      Intent.off_topic ∧
    turn_answer ⟨some "can you play a song", none, none, 7⟩
      (some { student_name := "Student", words := ["cat"], idx := 0,
              attempts := [], score_correct := 0, score_total := 0,
              wrong_words := [], skipped_words := [], word_context := [],
              completed := false, round := 1, created_ms := 0,
              last_active_ms := 0 }) =
      .ok ({ student_name := "Student", words := ["cat"], idx := 0,
             attempts := [], score_correct := 0, score_total := 0,
             wrong_words := [], skipped_words := [], word_context := [],
             completed := false, round := 1, created_ms := 0,
             last_active_ms := 0 },
           { idx := 0, word := "cat", letters := "", correct := false,
             attempts_for_word := 0, feedback_text := OFF_TOPIC_MSG,
             next_idx := 0, done := false, score_correct := 0,
             score_total := 0, wrong_words := [], is_guardrail := true }) ∧
    ({ idx := 0, word := "cat", letters := "", correct := false,
       attempts_for_word := 0, feedback_text := OFF_TOPIC_MSG,
       next_idx := 0, done := false, score_correct := 0,
       score_total := 0, wrong_words := [],
       is_guardrail := true } : AnswerResponse).is_guardrail = true ∧
    ({ student_name := "Student", words := ["cat"], idx := 0,
       attempts := [], score_correct := 0, score_total := 0,
       wrong_words := [], skipped_words := [], word_context := [],
       completed := false, round := 1, created_ms := 0,
       last_active_ms := 0 } : Session).score_correct =
      ({ student_name := "Student", words := ["cat"], idx := 0,
         attempts := [], score_correct := 0, score_total := 0,
         wrong_words := [], skipped_words := [], word_context := [],
         completed := false, round := 1, created_ms := 0,
         last_active_ms := 0 } : Session).score_correct := by
  have happ := c6_guardrail_frame
    { student_name := "Student", words := ["cat"], idx := 0,
      attempts := [], score_correct := 0, score_total := 0,
      wrong_words := [], skipped_words := [], word_context := [],
      completed := false, round := 1, created_ms := 0, last_active_ms := 0 }
    ⟨some "can you play a song", none, none, 7⟩
    { student_name := "Student", words := ["cat"], idx := 0,
      attempts := [], score_correct := 0, score_total := 0,
      wrong_words := [], skipped_words := [], word_context := [],
      completed := false, round := 1, created_ms := 0, last_active_ms := 0 }
    { idx := 0, word := "cat", letters := "", correct := false,
      attempts_for_word := 0, feedback_text := OFF_TOPIC_MSG,
      next_idx := 0, done := false, score_correct := 0,
      score_total := 0, wrong_words := [], is_guardrail := true }
    (by decide) rfl (Or.inl (by decide))
  exact ⟨by decide, rfl, happ.2.2.2.2.2.2.2.2.2.2.2.2.2.1, happ.1⟩

/-- C10 (implicit invariant): on every reachable session the running score
satisfies 0 ≤ score_correct ≤ score_total, and every answer turn preserves
score_correct ≤ score_total (score_correct is only incremented in a step
that also increments score_total). -/
theorem c10_score_invariant (s : Session) (hs : Reachable s) :
    (0 ≤ s.score_correct ∧ s.score_correct ≤ s.score_total) ∧
    ∀ (u : Session) (inp : TurnInput) (u2 : Session) (r : AnswerResponse),
      u.score_correct ≤ u.score_total →
      turn_answer inp (some u) = .ok (u2, r) →
      u2.score_correct ≤ u2.score_total := by
  refine ⟨⟨Nat.zero_le _, ?_⟩,
    fun u inp u2 r hle hok => score_step_pres u inp u2 r hle hok⟩
  induction hs with
  | start req name t0 s0 h0 =>
    obtain ⟨-, hsc, hst, -⟩ := start_session_fields req name t0 s0 h0
    omega
  | step s inp s2 r hr hok ih =>
    exact score_step_pres s inp s2 r ih hok

/-- Witness for C10 on a freshly started session. -/
theorem c10_score_invariant_witness :
    0 ≤ ({ student_name := "Student", words := ["cat"], idx := 0,
           attempts := [], score_correct := 0, score_total := 0,
           wrong_words := [], skipped_words := [], word_context := [],
           completed := false, round := 1, created_ms := 5,
           last_active_ms := 5 } : Session).score_correct ∧
    ({ student_name := "Student", words := ["cat"], idx := 0,
       attempts := [], score_correct := 0, score_total := 0,
       wrong_words := [], skipped_words := [], word_context := [],
       completed := false, round := 1, created_ms := 5,
       last_active_ms := 5 } : Session).score_correct ≤
      ({ student_name := "Student", words := ["cat"], idx := 0,
         attempts := [], score_correct := 0, score_total := 0,
         wrong_words := [], skipped_words := [], word_context := [],
         completed := false, round := 1, created_ms := 5,
         last_active_ms := 5 } : Session).score_total :=
  (c10_score_invariant _ (Reachable.start ["cat"] none 5 _ rfl)).1

/-- C5 counterexample: a submission for an already-completed session is
not rejected with a 4xx failure — turn_answer returns a successful
"All done!" response (the claim asserts a 4xx-class rejection there). -/
theorem c5_completed_not_rejected :
    turn_answer ⟨some "c a t", none, none, 9⟩
      (some { student_name := "Student", words := ["cat"], idx := 1,
              attempts := [(0, 1)], score_correct := 1, score_total := 1,
              wrong_words := [], skipped_words := [], word_context := [],
              completed := true, round := 1, created_ms := 0,
              last_active_ms := 7 }) =
    .ok ({ student_name := "Student", words := ["cat"], idx := 1,
           attempts := [(0, 1)], score_correct := 1, score_total := 1,
           wrong_words := [], skipped_words := [], word_context := [],
           completed := true, round := 1, created_ms := 0,
           last_active_ms := 7 },
         { idx := 1, word := "", letters := "", correct := true,
           attempts_for_word := 0, feedback_text := "All done!",
           next_idx := 1, done := true, score_correct := 1, score_total := 1,
           wrong_words := [], is_guardrail := false }) := rfl

/-- C5 (amended): a submission with an unknown session id is rejected with
404, and a submission with no transcript and no audio on a live session is
rejected with 400, each with a discriminating reason and no state mutation
(an error result never reaches the store); a submission for an
already-completed session is not rejected: it returns the fixed "All
done!" response with the session unchanged. -/
theorem c5_amended_input_errors :
    (∀ inp : TurnInput, turn_answer inp none = .error (404, "Unknown session_id")) ∧
    (∀ (inp : TurnInput) (s : Session), s.idx < s.words.length → turnTx inp = "" →
      turn_answer inp (some s) = .error (400, "Provide transcript or audio")) ∧
    (∀ (inp : TurnInput) (s : Session), s.idx = s.words.length →
      turn_answer inp (some s) = .ok (s, allDoneResp s)) :=
  ⟨turn_answer_none, fun inp s h1 h2 => turn_answer_noTx inp s h1 h2,
   fun inp s h => turn_answer_done inp s (by omega)⟩

/-- Witness for the amended C5 at concrete inputs. -/
theorem c5_amended_input_errors_witness :
    turn_answer ⟨some "c a t", none, none, 3⟩ none =
      .error (404, "Unknown session_id") ∧
    turn_answer ⟨some "   ", none, none, 3⟩
      (some { student_name := "Student", words := ["cat"], idx := 0,
              attempts := [], score_correct := 0, score_total := 0,
              wrong_words := [], skipped_words := [], word_context := [],
              completed := false, round := 1, created_ms := 0,
              last_active_ms := 0 }) =
      .error (400, "Provide transcript or audio") :=
  ⟨c5_amended_input_errors.1 _,
   c5_amended_input_errors.2.1 _ _ (by decide) (by decide)⟩

/-- C8: when the deterministic fusion result does not normalize to the
target, the generative fallback letters are adopted (used_llm = true)
exactly when they normalize to the target or are strictly longer than the
deterministic result; otherwise, and on a transport failure (`none`), the
deterministic result remains the credited letters. -/
theorem c8_fallback_acceptance (t b a : String) (raw : List String)
    (h : normalize_word (String.mk (fuse_letters t b a)) ≠ normalize_word t) :
    credited_letters t b a none = fuse_letters t b a ∧
    credited_letters t b a (some raw) =
      (resolve_letters (normalize_word t) (fuse_letters t b a) (some raw)).1 ∧
    ((resolve_letters (normalize_word t) (fuse_letters t b a) (some raw)).2 = true ↔
      (normalize_word (String.mk (llm_filter raw)) = normalize_word t ∨
       (fuse_letters t b a).length < (llm_filter raw).length)) ∧
    ((resolve_letters (normalize_word t) (fuse_letters t b a) (some raw)).2 = true →
      (resolve_letters (normalize_word t) (fuse_letters t b a) (some raw)).1 =
        llm_filter raw) ∧
    ((resolve_letters (normalize_word t) (fuse_letters t b a) (some raw)).2 = false →
      (resolve_letters (normalize_word t) (fuse_letters t b a) (some raw)).1 =
        fuse_letters t b a) := by
  refine ⟨?_, ?_, ?_⟩
  · unfold credited_letters
    rw [if_pos h]
    rfl
  · unfold credited_letters
    rw [if_pos h]
  by_cases hC : (normalize_word (String.mk (llm_filter raw)) = normalize_word t ∨
      (fuse_letters t b a).length < (llm_filter raw).length)
  · have e2 : resolve_letters (normalize_word t) (fuse_letters t b a) (some raw) =
        (llm_filter raw, true) := by
      simp only [resolve_letters]
      rw [if_pos hC]
    rw [e2]
    refine ⟨⟨fun _ => hC, fun _ => rfl⟩, fun _ => rfl, fun hf => ?_⟩
    simp at hf
  · have e3 : resolve_letters (normalize_word t) (fuse_letters t b a) (some raw) =
        (fuse_letters t b a, false) := by
      simp only [resolve_letters]
      rw [if_neg hC]
    rw [e3]
    refine ⟨⟨fun hf => ?_, fun hc => absurd hc hC⟩, fun hf => ?_, fun _ => rfl⟩
    · simp at hf
    · simp at hf

/-- Witness for C8 at a concrete mismatching fusion result. -/
theorem c8_fallback_acceptance_witness :
    normalize_word (String.mk (fuse_letters "cat" "x" "")) ≠ normalize_word "cat" ∧
    credited_letters "cat" "x" "" (some ["c", "a", "t"]) =
      (resolve_letters (normalize_word "cat") (fuse_letters "cat" "x" "")
        (some ["c", "a", "t"])).1 :=
  ⟨by decide, (c8_fallback_acceptance "cat" "x" "" ["c", "a", "t"] (by decide)).2.1⟩

theorem step_completed_iff (inp : TurnInput) (s s2 : Session) (r : AnswerResponse)
    (hlt : s.idx < s.words.length) (hcf : s.completed = false)
    (hok : turn_answer inp (some s) = .ok (s2, r)) :
    (s2.completed = true ↔ s2.idx = s.words.length) ∧
    (s2.completed = true → s2.idx = s.idx + 1) := by
  rcases turn_ok_cases inp s s2 r hok with h2 | ⟨-, h2⟩ | ⟨-, h2⟩
  · subst h2
    rw [hcf]
    exact ⟨Iff.intro (fun hf => nomatch hf) (fun hi => absurd hi (by omega)),
      fun hf => nomatch hf⟩
  · have hs2 : s2 = (skip_turn s inp (s.words.getD s.idx "")).1 :=
      congrArg Prod.fst h2
    have hi : (skip_turn s inp (s.words.getD s.idx "")).1.idx = s.idx + 1 := rfl
    have hc : (skip_turn s inp (s.words.getD s.idx "")).1.completed =
        (if s.words.length ≤ s.idx + 1 then true else s.completed) := rfl
    rw [hs2, hi, hc, hcf]
    by_cases hd : s.words.length ≤ s.idx + 1
    · rw [if_pos hd]
      exact ⟨Iff.intro (fun _ => by omega) (fun _ => rfl), fun _ => rfl⟩
    · rw [if_neg hd]
      exact ⟨Iff.intro (fun hf => nomatch hf) (fun he => absurd he (by omega)),
        fun hf => nomatch hf⟩
  · have hs2 : s2 =
        (spelling_turn s inp (s.words.getD s.idx "") (browserTx inp) (asrTx inp)).1 :=
      congrArg Prod.fst h2
    obtain ⟨-, hcase | hcase⟩ :=
      spelling_fst_shape s inp (s.words.getD s.idx "") (browserTx inp) (asrTx inp)
    · rw [hs2, hcase.1, hcase.2, hcf]
      exact ⟨Iff.intro (fun hf => nomatch hf) (fun he => absurd he (by omega)),
        fun hf => nomatch hf⟩
    · rw [hs2, hcase.1, hcase.2, hcf]
      by_cases hd : s.words.length ≤ s.idx + 1
      · rw [if_pos hd]
        exact ⟨Iff.intro (fun _ => by omega) (fun _ => rfl), fun _ => rfl⟩
      · rw [if_neg hd]
        exact ⟨Iff.intro (fun hf => nomatch hf) (fun he => absurd he (by omega)),
          fun hf => nomatch hf⟩

theorem correct_turn_step (s : Session) (inp : TurnInput) (s2 : Session)
    (r : AnswerResponse)
    (hlt : s.idx < s.words.length)
    (hok : turn_answer inp (some s) = .ok (s2, r))
    (hcl : (classify_intent (turnTx inp)).1 = Intent.spelling)
    (hc : r.correct = true) :
    s2.words = s.words ∧ s2.idx = s.idx + 1 ∧
    s2.score_correct = s.score_correct + 1 ∧
    s2.score_total = s.score_total + 1 ∧
    s2.completed = (if s.words.length ≤ s.idx + 1 then true else s.completed) := by
  by_cases htx : turnTx inp = ""
  · rw [turn_answer_noTx inp s hlt htx] at hok
    simp at hok
  · rcases hcl2 : classify_intent (turnTx inp) with ⟨i, m⟩
    rw [hcl2] at hcl
    have hi : i = Intent.spelling := hcl
    subst hi
    rw [turn_answer_spelling inp s m hlt htx hcl2] at hok
    have hpair : (s2, r) =
        spelling_turn s inp (s.words.getD s.idx "") (browserTx inp) (asrTx inp) :=
      (Except.ok.inj hok).symm
    have hr : r =
        (spelling_turn s inp (s.words.getD s.idx "") (browserTx inp) (asrTx inp)).2 :=
      congrArg Prod.snd hpair
    have hg : grade (s.words.getD s.idx "")
        (credited_letters (s.words.getD s.idx "") (browserTx inp) (asrTx inp) inp.llm)
        (browserTx inp) (asrTx inp) = true := by
      rw [← spelling_turn_snd_correct s inp (s.words.getD s.idx "")
        (browserTx inp) (asrTx inp), ← hr]
      exact hc
    have hs2 : s2 =
        (spelling_turn s inp (s.words.getD s.idx "") (browserTx inp) (asrTx inp)).1 :=
      congrArg Prod.fst hpair
    rw [hs2, spelling_turn_correct_eq s inp (s.words.getD s.idx "")
      (browserTx inp) (asrTx inp) hg]
    exact ⟨rfl, rfl, rfl, rfl, rfl⟩

theorem correct_turns_run :
    ∀ (inps : List TurnInput) (s sF : Session),
      CorrectTurns s inps sF → s.idx + inps.length ≤ s.words.length →
      sF.words = s.words ∧ sF.idx = s.idx + inps.length ∧
      sF.score_correct = s.score_correct + inps.length ∧
      sF.score_total = s.score_total + inps.length ∧
      sF.completed = (if s.idx + inps.length = s.words.length ∧ inps ≠ [] then true
                      else s.completed) := by
  intro inps
  induction inps with
  | nil =>
    intro s sF hrun hle
    have hsF : sF = s := hrun
    subst hsF
    refine ⟨rfl, by simp, by simp, by simp, ?_⟩
    simp
  | cons inp rest ih =>
    intro s sF hrun hle
    obtain ⟨s2, r, hok, hcl, hc, hrest⟩ := hrun
    have hlen : (inp :: rest).length = rest.length + 1 := by
      simp [List.length_cons]
    rw [hlen] at hle
    have hlt : s.idx < s.words.length := by omega
    obtain ⟨hw, hi, hsc, hst, hcomp⟩ := correct_turn_step s inp s2 r hlt hok hcl hc
    have hle2 : s2.idx + rest.length ≤ s2.words.length := by
      rw [hw, hi]
      omega
    obtain ⟨hw2, hi2, hsc2, hst2, hcomp2⟩ := ih s2 sF hrest hle2
    rw [hw] at hw2
    rw [hw, hi] at hcomp2
    rw [hi] at hi2
    rw [hsc] at hsc2
    rw [hst] at hst2
    rw [hlen]
    refine ⟨hw2, by omega, by omega, by omega, ?_⟩
    have hcons : (inp :: rest) ≠ [] := List.cons_ne_nil inp rest
    by_cases hC : s.idx + (rest.length + 1) = s.words.length
    · rw [if_pos ⟨hC, hcons⟩]
      by_cases hr : rest = []
      · subst hr
        rw [hcomp2, if_neg (by simp), hcomp, if_pos (by simp at hC; omega)]
      · rw [hcomp2, if_pos ⟨by omega, hr⟩]
    · rw [if_neg (fun h2 => hC h2.1)]
      rw [hcomp2, if_neg (fun h2 => hC (by omega)), hcomp,
        if_neg (by omega)]

/-- C1: starting from a freshly started session on n normalized words, a
run of n consecutive answer submissions, each classified as a spelling
attempt and graded correct, ends with completed = true, score_correct = n,
score_total = n and idx = n; and from any live state, completed becomes
true after a turn exactly when the turn made idx equal to len(words), an
index-advancing transition. -/
theorem c1_consecutive_correct_run
    (req : List String) (name : Option String) (t0 : Nat) (s0 : Session)
    (h0 : start_session req name t0 = some s0)
    (inps : List TurnInput) (sF : Session)
    (hlen : inps.length = s0.words.length)
    (hrun : CorrectTurns s0 inps sF) :
    (sF.completed = true ∧ sF.score_correct = s0.words.length ∧
     sF.score_total = s0.words.length ∧ sF.idx = s0.words.length) ∧
    (∀ (inp : TurnInput) (s s2 : Session) (r : AnswerResponse),
       s.idx < s.words.length → s.completed = false →
       turn_answer inp (some s) = .ok (s2, r) →
       ((s2.completed = true ↔ s2.idx = s.words.length) ∧
        (s2.completed = true → s2.idx = s.idx + 1))) := by
  obtain ⟨hidx, hsc, hst, hcf, -, -, -, hlen0⟩ :=
    start_session_fields req name t0 s0 h0
  have hle : s0.idx + inps.length ≤ s0.words.length := by omega
  obtain ⟨hw, hi, hsc2, hst2, hcomp⟩ := correct_turns_run inps s0 sF hrun hle
  have hne : inps ≠ [] := by
    intro h2
    subst h2
    simp at hlen
    omega
  refine ⟨⟨?_, by omega, by omega, by omega⟩,
    fun inp s s2 r hlt hcf2 hok => step_completed_iff inp s s2 r hlt hcf2 hok⟩
  rw [hcomp, if_pos ⟨by omega, hne⟩]

/-- C3: with retry budget 1 and no prior attempts on the current word, two
consecutive incorrect spelling submissions produce exactly one retry
response with no index change, then one advance with the target appended
exactly once to wrong_words; the attempt counter for the word index is 2
at the advance, score_total increments on each graded attempt and
score_correct stays unchanged. -/
theorem c3_retry_exhaustion
    (s : Session) (i1 i2 : TurnInput) (s1 : Session) (r1 : AnswerResponse)
    (s2 : Session) (r2 : AnswerResponse)
    (hlt : s.idx < s.words.length)
    (ha0 : lookupD s.attempts s.idx = 0)
    (h1 : turn_answer i1 (some s) = .ok (s1, r1))
    (hc1 : (classify_intent (turnTx i1)).1 = Intent.spelling)
    (hw1 : r1.correct = false)
    (h2 : turn_answer i2 (some s1) = .ok (s2, r2))
    (hc2 : (classify_intent (turnTx i2)).1 = Intent.spelling)
    (hw2 : r2.correct = false) :
    s1.idx = s.idx ∧ r1.next_idx = s.idx ∧ r1.done = false ∧
    r1.feedback_text = "Not quite. Try again." ∧
    s1.wrong_words = s.wrong_words ∧
    s1.score_total = s.score_total + 1 ∧ s1.score_correct = s.score_correct ∧
    s2.idx = s.idx + 1 ∧
    s2.wrong_words = s.wrong_words ++ [s.words.getD s.idx ""] ∧
    r2.attempts_for_word = 2 ∧ lookupD s2.attempts s.idx = 2 ∧
    s2.score_total = s.score_total + 2 ∧ s2.score_correct = s.score_correct := by
  have htx1 : turnTx i1 ≠ "" := by
    intro he
    rw [turn_answer_noTx i1 s hlt he] at h1
    simp at h1
  rcases hcl1 : classify_intent (turnTx i1) with ⟨j1, m1⟩
  rw [hcl1] at hc1
  have hj1 : j1 = Intent.spelling := hc1
  subst hj1
  rw [turn_answer_spelling i1 s m1 hlt htx1 hcl1] at h1
  have hpair1 : (s1, r1) =
      spelling_turn s i1 (s.words.getD s.idx "") (browserTx i1) (asrTx i1) :=
    (Except.ok.inj h1).symm
  have hg1 : grade (s.words.getD s.idx "")
      (credited_letters (s.words.getD s.idx "") (browserTx i1) (asrTx i1) i1.llm)
      (browserTx i1) (asrTx i1) = false := by
    have hr1 : r1 =
        (spelling_turn s i1 (s.words.getD s.idx "") (browserTx i1) (asrTx i1)).2 :=
      congrArg Prod.snd hpair1
    rw [← spelling_turn_snd_correct s i1 (s.words.getD s.idx "")
      (browserTx i1) (asrTx i1), ← hr1]
    exact hw1
  have ha1 : lookupD s.attempts s.idx + 1 ≤ RETRY_ON_WRONG := by
    rw [ha0]
    decide
  rw [spelling_turn_retry_eq s i1 (s.words.getD s.idx "") (browserTx i1)
    (asrTx i1) hg1 ha1] at hpair1
  obtain ⟨hs1, hr1⟩ := Prod.mk.inj hpair1
  subst hs1
  subst hr1
  refine ⟨rfl, Nat.min_eq_left (Nat.le_of_lt hlt), rfl, rfl, rfl, rfl, rfl,
    ?_, ?_, ?_, ?_, ?_, ?_⟩
  all_goals {
    have hlt2 : ({ s with
        attempts := setKey s.attempts s.idx (lookupD s.attempts s.idx + 1),
        score_total := s.score_total + 1,
        last_active_ms := i1.now } : Session).idx <
        ({ s with
        attempts := setKey s.attempts s.idx (lookupD s.attempts s.idx + 1),
        score_total := s.score_total + 1,
        last_active_ms := i1.now } : Session).words.length := hlt
    have htx2 : turnTx i2 ≠ "" := by
      intro he
      rw [turn_answer_noTx i2 _ hlt2 he] at h2
      simp at h2
    rcases hcl2 : classify_intent (turnTx i2) with ⟨j2, m2⟩
    rw [hcl2] at hc2
    have hj2 : j2 = Intent.spelling := hc2
    subst hj2
    rw [turn_answer_spelling i2 _ m2 hlt2 htx2 hcl2] at h2
    have hpair2 := (Except.ok.inj h2).symm
    have hg2 : grade (s.words.getD s.idx "")
        (credited_letters (s.words.getD s.idx "") (browserTx i2) (asrTx i2) i2.llm)
        (browserTx i2) (asrTx i2) = false := by
      have hr2 := congrArg Prod.snd hpair2
      rw [← spelling_turn_snd_correct _ i2 _ (browserTx i2) (asrTx i2), ← hr2]
      exact hw2
    have hkey : lookupD (setKey s.attempts s.idx (lookupD s.attempts s.idx + 1))
        s.idx = 1 := by
      rw [lookupD_setKey_self, ha0]
    have ha2 : ¬ (lookupD (setKey s.attempts s.idx (lookupD s.attempts s.idx + 1))
        s.idx + 1 ≤ RETRY_ON_WRONG) := by
      rw [hkey]
      decide
    rw [spelling_turn_miss_eq _ i2 _ (browserTx i2) (asrTx i2) hg2 ha2] at hpair2
    obtain ⟨hs2, hr2⟩ := Prod.mk.inj hpair2
    subst hs2
    subst hr2
    first
      | rfl
      | (show lookupD (setKey _ s.idx _) s.idx = 2
         rw [lookupD_setKey_self, hkey])
      | (show lookupD _ s.idx + 1 = 2
         rw [hkey])
  }

/-- C4: on every reachable incomplete session, a skip turn changes neither
score nor the attempts map, appends exactly the current target word to
skipped_words, advances idx by exactly 1, and leaves every other field
except completed and last_active_ms unchanged. -/
theorem c4_skip_frame (s : Session) (inp : TurnInput) (s2 : Session)
    (r : AnswerResponse)
    (hreach : Reachable s) (hinc : s.completed = false)
    (hok : turn_answer inp (some s) = .ok (s2, r))
    (hcl : (classify_intent (turnTx inp)).1 = Intent.skip) :
    s2.score_total = s.score_total ∧ s2.score_correct = s.score_correct ∧
    s2.attempts = s.attempts ∧
    s2.skipped_words = s.skipped_words ++ [s.words.getD s.idx ""] ∧
    s2.idx = s.idx + 1 ∧
    s2.student_name = s.student_name ∧ s2.words = s.words ∧
    s2.wrong_words = s.wrong_words ∧ s2.word_context = s.word_context ∧
    s2.round = s.round ∧ s2.created_ms = s.created_ms := by
  have hlt : s.idx < s.words.length := by
    obtain ⟨hle, hc⟩ := reachable_inv s hreach
    rw [hinc] at hc
    have := of_decide_eq_false hc.symm
    omega
  rcases hcl2 : classify_intent (turnTx inp) with ⟨j, m⟩
  rw [hcl2] at hcl
  have hj : j = Intent.skip := hcl
  subst hj
  rw [turn_answer_skip inp s m hlt hcl2] at hok
  have hpair : (s2, r) = skip_turn s inp (s.words.getD s.idx "") :=
    (Except.ok.inj hok).symm
  have hs2 : s2 = (skip_turn s inp (s.words.getD s.idx "")).1 :=
    congrArg Prod.fst hpair
  rw [hs2]
  exact ⟨rfl, rfl, rfl, rfl, rfl, rfl, rfl, rfl, rfl, rfl, rfl⟩

/-- Witness for C1: a one-word session, one correct spelling turn. -/
theorem c1_consecutive_correct_run_witness :
    start_session ["cat"] none 0 =
      some { student_name := "Student", words := ["cat"], idx := 0,
             attempts := [], score_correct := 0, score_total := 0,
             wrong_words := [], skipped_words := [], word_context := [],
             completed := false, round := 1, created_ms := 0,
             last_active_ms := 0 } ∧
    CorrectTurns
      { student_name := "Student", words := ["cat"], idx := 0,
        attempts := [], score_correct := 0, score_total := 0,
        wrong_words := [], skipped_words := [], word_context := [],
        completed := false, round := 1, created_ms := 0, last_active_ms := 0 }
      [⟨some "c a t", none, none, 7⟩]
      { student_name := "Student", words := ["cat"], idx := 1,
        attempts := [(0, 1)], score_correct := 1, score_total := 1,
        wrong_words := [], skipped_words := [], word_context := [],
        completed := true, round := 1, created_ms := 0, last_active_ms := 7 } ∧
    ({ student_name := "Student", words := ["cat"], idx := 1,
       attempts := [(0, 1)], score_correct := 1, score_total := 1,
       wrong_words := [], skipped_words := [], word_context := [],
       completed := true, round := 1, created_ms := 0,
       last_active_ms := 7 } : Session).completed = true ∧
    ({ student_name := "Student", words := ["cat"], idx := 1,
       attempts := [(0, 1)], score_correct := 1, score_total := 1,
       wrong_words := [], skipped_words := [], word_context := [],
       completed := true, round := 1, created_ms := 0,
       last_active_ms := 7 } : Session).score_correct = 1 ∧
    ({ student_name := "Student", words := ["cat"], idx := 1,
       attempts := [(0, 1)], score_correct := 1, score_total := 1,
       wrong_words := [], skipped_words := [], word_context := [],
       completed := true, round := 1, created_ms := 0,
       last_active_ms := 7 } : Session).idx = 1 := by
  have hrun : CorrectTurns
      { student_name := "Student", words := ["cat"], idx := 0,
        attempts := [], score_correct := 0, score_total := 0,
        wrong_words := [], skipped_words := [], word_context := [],
        completed := false, round := 1, created_ms := 0, last_active_ms := 0 }
      [⟨some "c a t", none, none, 7⟩]
      { student_name := "Student", words := ["cat"], idx := 1,
        attempts := [(0, 1)], score_correct := 1, score_total := 1,
        wrong_words := [], skipped_words := [], word_context := [],
        completed := true, round := 1, created_ms := 0, last_active_ms := 7 } := by
    rw [CorrectTurns]
    refine ⟨{ student_name := "Student", words := ["cat"], idx := 1,
              attempts := [(0, 1)], score_correct := 1, score_total := 1,
              wrong_words := [], skipped_words := [], word_context := [],
              completed := true, round := 1, created_ms := 0,
              last_active_ms := 7 },
            { idx := 0, word := "cat", letters := "cat", correct := true,
              attempts_for_word := 1,
              feedback_text := "Great job! You finished all 1 words.",
              next_idx := 1, done := true, score_correct := 1, score_total := 1,
              wrong_words := [], is_guardrail := false },
            rfl, by decide, rfl, ?_⟩
    rw [CorrectTurns]
  have happ := c1_consecutive_correct_run ["cat"] none 0 _ rfl
    [⟨some "c a t", none, none, 7⟩] _ rfl hrun
  exact ⟨rfl, hrun, happ.1.1, happ.1.2.1, happ.1.2.2.2⟩

/-- Witness for C3: two wrong attempts on "cat" with retry budget 1. -/
theorem c3_retry_exhaustion_witness :
    ({ student_name := "Student", words := ["cat", "dog"], idx := 0,
       attempts := [], score_correct := 0, score_total := 0,
       wrong_words := [], skipped_words := [], word_context := [],
       completed := false, round := 1, created_ms := 0,
       last_active_ms := 0 } : Session).idx <
      ({ student_name := "Student", words := ["cat", "dog"], idx := 0,
         attempts := [], score_correct := 0, score_total := 0,
         wrong_words := [], skipped_words := [], word_context := [],
         completed := false, round := 1, created_ms := 0,
         last_active_ms := 0 } : Session).words.length ∧
    ({ student_name := "Student", words := ["cat", "dog"], idx := 1,
       attempts := [(0, 2)], score_correct := 0, score_total := 2,
       wrong_words := ["cat"], skipped_words := [], word_context := [],
       completed := false, round := 1, created_ms := 0,
       last_active_ms := 8 } : Session).wrong_words =
      ({ student_name := "Student", words := ["cat", "dog"], idx := 0,
         attempts := [], score_correct := 0, score_total := 0,
         wrong_words := [], skipped_words := [], word_context := [],
         completed := false, round := 1, created_ms := 0,
         last_active_ms := 0 } : Session).wrong_words ++
        [({ student_name := "Student", words := ["cat", "dog"], idx := 0,
            attempts := [], score_correct := 0, score_total := 0,
            wrong_words := [], skipped_words := [], word_context := [],
            completed := false, round := 1, created_ms := 0,
            last_active_ms := 0 } : Session).words.getD 0 ""] ∧
    ({ idx := 0, word := "cat", letters := "x", correct := false,
       attempts_for_word := 2,
       feedback_text := "Not quite. The correct spelling is c ... a ... t. ... Next word.",
       next_idx := 1, done := false, score_correct := 0, score_total := 2,
       wrong_words := [], is_guardrail := false } : AnswerResponse).attempts_for_word = 2 := by
  have happ := c3_retry_exhaustion
    { student_name := "Student", words := ["cat", "dog"], idx := 0,
      attempts := [], score_correct := 0, score_total := 0,
      wrong_words := [], skipped_words := [], word_context := [],
      completed := false, round := 1, created_ms := 0, last_active_ms := 0 }
    ⟨some "x", none, none, 7⟩ ⟨some "x", none, none, 8⟩
    { student_name := "Student", words := ["cat", "dog"], idx := 0,
      attempts := [(0, 1)], score_correct := 0, score_total := 1,
      wrong_words := [], skipped_words := [], word_context := [],
      completed := false, round := 1, created_ms := 0, last_active_ms := 7 }
    { idx := 0, word := "cat", letters := "x", correct := false,
      attempts_for_word := 1, feedback_text := "Not quite. Try again.",
      next_idx := 0, done := false, score_correct := 0, score_total := 1,
      wrong_words := [], is_guardrail := false }
    { student_name := "Student", words := ["cat", "dog"], idx := 1,
      attempts := [(0, 2)], score_correct := 0, score_total := 2,
      wrong_words := ["cat"], skipped_words := [], word_context := [],
      completed := false, round := 1, created_ms := 0, last_active_ms := 8 }
    { idx := 0, word := "cat", letters := "x", correct := false,
      attempts_for_word := 2,
      feedback_text := "Not quite. The correct spelling is c ... a ... t. ... Next word.",
      next_idx := 1, done := false, score_correct := 0, score_total := 2,
      wrong_words := [], is_guardrail := false }
    (by decide) rfl rfl (by decide) rfl rfl (by decide) rfl
  exact ⟨by decide, happ.2.2.2.2.2.2.2.2.1, happ.2.2.2.2.2.2.2.2.2.1⟩

/-- Witness for C4: a skip turn on a freshly started two-word session. -/
theorem c4_skip_frame_witness :
    ({ student_name := "Student", words := ["cat", "dog"], idx := 0,
       attempts := [], score_correct := 0, score_total := 0,
       wrong_words := [], skipped_words := [], word_context := [],
       completed := false, round := 1, created_ms := 0,
       last_active_ms := 0 } : Session).completed = false ∧
    (classify_intent (turnTx ⟨some "skip", none, none, 7⟩)).1 = Intent.skip ∧
    ({ student_name := "Student", words := ["cat", "dog"], idx := 1,
       attempts := [], score_correct := 0, score_total := 0,
       wrong_words := [], skipped_words := ["cat"], word_context := [],
       completed := false, round := 1, created_ms := 0,
       last_active_ms := 7 } : Session).skipped_words =
      ({ student_name := "Student", words := ["cat", "dog"], idx := 0,
         attempts := [], score_correct := 0, score_total := 0,
         wrong_words := [], skipped_words := [], word_context := [],
         completed := false, round := 1, created_ms := 0,
         last_active_ms := 0 } : Session).skipped_words ++
        [({ student_name := "Student", words := ["cat", "dog"], idx := 0,
            attempts := [], score_correct := 0, score_total := 0,
            wrong_words := [], skipped_words := [], word_context := [],
            completed := false, round := 1, created_ms := 0,
            last_active_ms := 0 } : Session).words.getD 0 ""] ∧
    ({ student_name := "Student", words := ["cat", "dog"], idx := 1,
       attempts := [], score_correct := 0, score_total := 0,
       wrong_words := [], skipped_words := ["cat"], word_context := [],
       completed := false, round := 1, created_ms := 0,
       last_active_ms := 7 } : Session).score_total =
      ({ student_name := "Student", words := ["cat", "dog"], idx := 0,
         attempts := [], score_correct := 0, score_total := 0,
         wrong_words := [], skipped_words := [], word_context := [],
         completed := false, round := 1, created_ms := 0,
         last_active_ms := 0 } : Session).score_total := by
  have happ := c4_skip_frame
    { student_name := "Student", words := ["cat", "dog"], idx := 0,
      attempts := [], score_correct := 0, score_total := 0,
      wrong_words := [], skipped_words := [], word_context := [],
      completed := false, round := 1, created_ms := 0, last_active_ms := 0 }
    ⟨some "skip", none, none, 7⟩
    { student_name := "Student", words := ["cat", "dog"], idx := 1,
      attempts := [], score_correct := 0, score_total := 0,
      wrong_words := [], skipped_words := ["cat"], word_context := [],
      completed := false, round := 1, created_ms := 0, last_active_ms := 7 }
    { idx := 0, word := "cat", letters := "", correct := false,
      attempts_for_word := 0, feedback_text := "Skipping cat. Next word.",
      next_idx := 1, done := false, score_correct := 0, score_total := 0,
      wrong_words := [], is_guardrail := false }
    (Reachable.start ["cat", "dog"] none 0 _ rfl) rfl rfl (by decide)
  exact ⟨rfl, by decide, happ.2.2.2.1, happ.1⟩

end SB
